import Mathlib

/-
Shallow embedding of the MarylandData ingestion / derived-metrics pipeline.

Sources embedded here:
- src/collect_hanover_data.py  (get_census_acs5, get_census_decennial_2020,
  calculate_key_metrics, save_results, _save_raw)
- src/get_real_employment_data.py  (analyze_real_affordability and the ACS
  value-conversion loop shared with collect_hanover_data.py)
- src/scripts/analyze_real_data.py  (convert_census_value)
- src/scripts/audit_provenance.py  (audit_hanover_real_data,
  audit_real_employment_income, main)

Modelling conventions: Python floats are modelled as rationals, machine ints
as Int, JSON nulls as Option.none.  Python truthiness on an optional number
(used pervasively by the source as a presence test) is modelled explicitly:
an absent value and the number 0 are both falsy.
-/

namespace MarylandData

/-- Python value universe for convert_census_value, which can receive and
return None, ints, strings, or any other object (floats modelled as Rat). -/
inductive PyVal where
  | vNone : PyVal
  | vInt (n : Int) : PyVal
  | vStr (s : String) : PyVal
  | vFloat (q : Rat) : PyVal
  deriving DecidableEq, Repr

/-- Digits-only string body to Nat; none when empty or any non-digit. -/
def digitsToNat (cs : List Char) : Option Nat :=
  match cs with
  | [] => none
  | _ =>
    if cs.all Char.isDigit then
      some (cs.foldl (fun a c => a * 10 + (c.toNat - 48)) 0)
    else none

/-- Model of CPython int(str) on the strings this pipeline sees: optional
surrounding spaces, an optional single sign, then a nonempty run of ASCII
digits.  (Underscore separators and non-ASCII digits, which CPython also
accepts, do not occur in Census payloads and are out of the model.)
Returns none where CPython raises ValueError. -/
def pyParseInt (s : String) : Option Int :=
  let cs := ((s.toList.dropWhile (fun c => c = ' ')).reverse.dropWhile
    (fun c => c = ' ')).reverse
  match cs with
  | '-' :: rest => (digitsToNat rest).map (fun n => -(n : Int))
  | '+' :: rest => (digitsToNat rest).map (fun n => (n : Int))
  | _ => (digitsToNat cs).map (fun n => (n : Int))

/-- The three Census sentinel codes checked by the ACS collectors and by
convert_census_value (src/scripts/analyze_real_data.py line 27). -/
def sentinel (s : String) : Bool :=
  s == "-666666666" || s == "-888888888" || s == "-999999999"

/-- convert_census_value (src/scripts/analyze_real_data.py lines 19-33):
None passes through; the string "0" becomes 0; sentinel strings become
None; other strings are int-parsed, falling back to the original string on
ValueError; every non-string non-None value is returned unchanged. -/
def convert_census_value (v : PyVal) : PyVal :=
  match v with
  | PyVal.vNone => PyVal.vNone
  | PyVal.vStr s =>
    if s = "0" then PyVal.vInt 0
    else if sentinel s then PyVal.vNone
    else
      match pyParseInt s with
      | some n => PyVal.vInt n
      | none => PyVal.vStr s
  | PyVal.vInt n => PyVal.vInt n
  | PyVal.vFloat q => PyVal.vFloat q

/-- ACS collector conversion of one raw JSON cell (src/collect_hanover_data.py
lines 84-91, identical in src/get_real_employment_data.py lines 79-86):
sentinel strings and null convert to None; otherwise int(raw), keeping the
raw string on ValueError. -/
def acsConvert (raw : Option String) : PyVal :=
  match raw with
  | none => PyVal.vNone
  | some s =>
    if sentinel s then PyVal.vNone
    else
      match pyParseInt s with
      | some n => PyVal.vInt n
      | none => PyVal.vStr s

/-- Decennial collector conversion of one raw JSON cell
(src/collect_hanover_data.py lines 150-161): it applies int(values[i])
directly, with NO sentinel check; the except branch records None on
ValueError/TypeError (unparsable string, or null cell). -/
def decennialConvert (raw : Option String) : PyVal :=
  match raw with
  | none => PyVal.vNone
  | some s =>
    match pyParseInt s with
    | some n => PyVal.vInt n
    | none => PyVal.vNone

/-- Python truthiness of an optional integer value: absent and 0 are falsy.
The source uses this as its presence test throughout calculate_key_metrics. -/
def truthy (v : Option Int) : Bool :=
  match v with
  | none => false
  | some n => n != 0

/-- Python truthiness of an optional rational (float) value. -/
def qtruthy (v : Option Rat) : Bool :=
  match v with
  | none => false
  | some q => q != 0

/-- Converted ACS values used by calculate_key_metrics
(src/collect_hanover_data.py lines 42-59 and 196-249): each field is the
converted (None-or-integer) value of one Census variable.  B25004_001E and
B08303_001E are fetched but never read by the calculator and are omitted. -/
structure AcsData where
  total_population : Option Int    -- B01003_001E
  median_income : Option Int       -- B19013_001E
  median_home_value : Option Int   -- B25077_001E
  median_gross_rent : Option Int   -- B25064_001E
  total_housing_units : Option Int -- B25001_001E
  owner_occupied : Option Int      -- B25003_002E
  renter_occupied : Option Int     -- B25003_003E
  total_workers : Option Int       -- B08301_001E
  public_transit : Option Int      -- B08301_010E
  work_from_home : Option Int      -- B08301_021E
  bachelor : Option Int            -- B15003_022E
  master : Option Int              -- B15003_023E
  professional : Option Int        -- B15003_024E
  doctorate : Option Int           -- B15003_025E
  deriving DecidableEq, Repr

/-- Converted Decennial 2020 value (src/collect_hanover_data.py line 201). -/
structure DecennialData where
  population_2020 : Option Int     -- P1_001N
  deriving DecidableEq, Repr

/-- The derived-metrics mapping built by calculate_key_metrics: one optional
field per metric key the source may set (absent field = key not in dict). -/
structure Metrics where
  population_2023 : Option Int
  population_2020 : Option Int
  growth_rate : Option Rat
  vacancy_rate : Option Rat
  total_housing_units : Option Int
  occupied_units : Option Int
  median_income : Option Int
  median_home_value : Option Int
  price_to_income_ratio : Option Rat
  affordable_home_price : Option Int
  median_gross_rent : Option Int
  total_workers : Option Int
  public_transit_rate : Option Rat
  work_from_home_rate : Option Rat
  college_plus_rate : Option Rat
  housing_development : Bool       -- key present iff housing_data was truthy
  deriving DecidableEq, Repr

/-- True iff the metrics dict is empty (no key was ever set). -/
def Metrics.isEmpty (m : Metrics) : Bool :=
  m.population_2023.isNone && m.population_2020.isNone && m.growth_rate.isNone
    && m.vacancy_rate.isNone && m.total_housing_units.isNone
    && m.occupied_units.isNone && m.median_income.isNone
    && m.median_home_value.isNone && m.price_to_income_ratio.isNone
    && m.affordable_home_price.isNone && m.median_gross_rent.isNone
    && m.total_workers.isNone && m.public_transit_rate.isNone
    && m.work_from_home_rate.isNone && m.college_plus_rate.isNone
    && !m.housing_development

/-- Shorthand for reading a guarded value (guards in the source establish the
value is present before it is used, so the default is never observed). -/
def iv (v : Option Int) : Int := v.getD 0

/-- Body of calculate_key_metrics for a present ACS block
(src/collect_hanover_data.py lines 193-256).  Each dict key is set by an
independent if-block in the source; the guards here reproduce those Python
truthiness conditions exactly.  The income_breakdown-style side effects in
the source are print-only and not modelled. -/
def calcMetricsSome (a : AcsData) (dec : Option DecennialData)
    (housing_data : Bool) : Metrics :=
  let total_pop := a.total_population
  let pop2020 : Option Int :=
    match dec with
    | some d => d.population_2020
    | none => none
  let growthOk := dec.isSome && truthy pop2020 && truthy total_pop
  let housingOk := truthy a.total_housing_units && truthy a.owner_occupied
    && truthy a.renter_occupied
  let incomeOk := truthy a.median_income && truthy a.median_home_value
  let workOk := truthy a.total_workers && a.public_transit.isSome
    && a.work_from_home.isSome
  { population_2023 := if truthy total_pop then total_pop else none
  , population_2020 := if growthOk then pop2020 else none
  , growth_rate :=
      if growthOk then
        some ((((iv total_pop : Rat) - (iv pop2020 : Rat)) / (iv pop2020 : Rat))
          * 100)
      else none
  , vacancy_rate :=
      if housingOk then
        some ((((iv a.total_housing_units : Rat)
          - ((iv a.owner_occupied : Rat) + (iv a.renter_occupied : Rat)))
          / (iv a.total_housing_units : Rat)) * 100)
      else none
  , total_housing_units := if housingOk then a.total_housing_units else none
  , occupied_units :=
      if housingOk then some (iv a.owner_occupied + iv a.renter_occupied)
      else none
  , median_income := if incomeOk then a.median_income else none
  , median_home_value := if incomeOk then a.median_home_value else none
  , price_to_income_ratio :=
      if incomeOk then
        some ((iv a.median_home_value : Rat) / (iv a.median_income : Rat))
      else none
  , affordable_home_price :=
      if incomeOk then some (iv a.median_income * 3) else none
  , median_gross_rent :=
      if truthy a.median_gross_rent then a.median_gross_rent else none
  , total_workers := if workOk then a.total_workers else none
  , public_transit_rate :=
      if workOk then
        some (((iv a.public_transit : Rat) / (iv a.total_workers : Rat)) * 100)
      else none
  , work_from_home_rate :=
      if workOk then
        some (((iv a.work_from_home : Rat) / (iv a.total_workers : Rat)) * 100)
      else none
  , college_plus_rate :=
      if truthy total_pop then
        some ((((iv a.bachelor : Rat) + (iv a.master : Rat)
          + (iv a.professional : Rat) + (iv a.doctorate : Rat))
          / (iv total_pop : Rat)) * 100)
      else none
  , housing_development := housing_data }

/-- calculate_key_metrics (src/collect_hanover_data.py lines 188-256):
returns None when the ACS argument is falsy, otherwise the metrics dict.
It contains no raise statement on any path. -/
def calculate_key_metrics (acs : Option AcsData) (dec : Option DecennialData)
    (housing_data : Bool) : Option Metrics :=
  match acs with
  | none => none
  | some a => some (calcMetricsSome a dec housing_data)

/-- Observable effects of save_results (src/collect_hanover_data.py lines
258-289): the JSON document embedding calculated_metrics is written
unconditionally; the CSV summary is written only when the metrics dict is
truthy (present and non-empty).  No path raises. -/
structure SavedResults where
  json_written : Bool
  csv_written : Bool
  calculated_metrics : Option Metrics
  deriving DecidableEq, Repr

/-- save_results effect model (src/collect_hanover_data.py lines 258-289). -/
def save_results (metrics : Option Metrics) : SavedResults :=
  { json_written := true
  , csv_written :=
      match metrics with
      | none => false
      | some m => !(Metrics.isEmpty m)
  , calculated_metrics := metrics }

/-- An ACS block all of whose converted values are unavailable. -/
def acsAllNull : AcsData :=
  { total_population := none, median_income := none, median_home_value := none
  , median_gross_rent := none, total_housing_units := none
  , owner_occupied := none, renter_occupied := none, total_workers := none
  , public_transit := none, work_from_home := none, bachelor := none
  , master := none, professional := none, doctorate := none }

/-- Income-distribution block read by analyze_real_affordability
(src/get_real_employment_data.py lines 228-229 and 238-258): the converted
value of B19001_001E plus the converted values of B19001_002E..B19001_017E
in bracket order (a missing dict entry and a None value both read as 0 via
the chained .get(...).get(value, 0) or 0 in the source). -/
structure IncomeBlock where
  total_households : Option Int
  bracket_counts : List (Option Int)
  deriving DecidableEq, Repr

/-- Representative upper-bound incomes of the 16 brackets, exactly the
max_income column of the income_brackets table
(src/get_real_employment_data.py lines 238-255); the open-ended top bracket
uses the documented conservative 300000. -/
def bracket_bounds : List Int :=
  [10000, 14999, 19999, 24999, 29999, 34999, 39999, 44999, 49999, 59999,
   74999, 99999, 124999, 149999, 199999, 300000]

/-- Household count read for bracket i:
_income_block.get(var_id, \x7b\x7d).get(value, 0) or 0. -/
def bracketCount (blk : IncomeBlock) (i : Nat) : Int :=
  (blk.bracket_counts.getD i none).getD 0

/-- One iteration of the classification loop
(src/get_real_employment_data.py lines 257-269): the pair carries the
running (can_afford, cannot_afford) counters, and p is one bracket row
(max_income, households).  The source test is max_income >= required. -/
def classifyStep (required : Rat) (acc : Int × Int) (p : Int × Int) :
    Int × Int :=
  if required ≤ (p.1 : Rat) then (acc.1 + p.2, acc.2)
  else (acc.1, acc.2 + p.2)

/-- Bracket rows (max_income, households) the loop iterates, in the order of
the income_brackets table. -/
def bracketRows (blk : IncomeBlock) : List (Int × Int) :=
  (List.range 16).map (fun i => (bracket_bounds.getD i 0, bracketCount blk i))

/-- The classification loop of analyze_real_affordability: both counters
accumulated over the 16 bracket rows, starting at (0, 0). -/
def classifyLoop (blk : IncomeBlock) (required : Rat) : Int × Int :=
  (bracketRows blk).foldl (classifyStep required) (0, 0)

/-- Sum of all 16 bracket counts of a distribution. -/
def bracketSum (blk : IncomeBlock) : Int :=
  ((List.range 16).map (bracketCount blk)).sum

/-- Monthly housing-cost selection (src/get_real_employment_data.py lines
205-223): Python truthiness chain over rent and the PITI proxy; None when
neither is truthy (the source then returns None). -/
def monthlyHousingCost (monthly_rent monthly_piti : Option Rat) : Option Rat :=
  if qtruthy monthly_rent && qtruthy monthly_piti then
    some (max (monthly_rent.getD 0) (monthly_piti.getD 0))
  else if qtruthy monthly_rent then monthly_rent
  else if qtruthy monthly_piti then monthly_piti
  else none

/-- Result dict of analyze_real_affordability
(src/get_real_employment_data.py lines 271-285); the income_breakdown and
provenance sub-dicts are presentation metadata and are not modelled. -/
structure AffordabilityResult where
  required_income : Rat
  can_afford : Int
  cannot_afford : Int
  can_afford_percentage : Rat
  cannot_afford_percentage : Rat
  total_households : Int
  deriving DecidableEq, Repr

/-- analyze_real_affordability (src/get_real_employment_data.py lines
181-285).  The baseline-metrics file read is modelled by passing the parsed
median_home_value / median_gross_rent directly (none when the file or field
is absent or non-numeric).  Note the source reports the input B19001_001E
total as total_households; it never cross-checks it against the bracket
counts it classifies. -/
def analyze_real_affordability (income_data : Option IncomeBlock)
    (median_home_value median_gross_rent : Option Rat) :
    Option AffordabilityResult :=
  match income_data with
  | none => none
  | some blk =>
    let monthly_rent := median_gross_rent
    let monthly_piti := median_home_value.map (fun v => (6 / 1000 : Rat) * v)
    match monthlyHousingCost monthly_rent monthly_piti with
    | none => none
    | some cost =>
      let required : Rat := cost * 12 / (3 / 10)
      match blk.total_households with
      | none => none
      | some tot =>
        if tot = 0 then none
        else
          let counters := classifyLoop blk required
          some
            { required_income := required
            , can_afford := counters.1
            , cannot_afford := counters.2
            , can_afford_percentage :=
                ((counters.1 : Rat) / (tot : Rat)) * 100
            , cannot_afford_percentage :=
                ((counters.2 : Rat) / (tot : Rat)) * 100
            , total_households := tot }

/-- Result of _save_raw (src/collect_hanover_data.py lines 21-28): the
returned path embeds the label and a strftime timestamp (modelled to the
second, the precision of the format string) read from the clock at save
time. -/
structure SaveRawResult where
  out_dir : String
  label : String
  timestamp_sec : Nat
  deriving DecidableEq, Repr

/-- _save_raw, with the n-th datetime.utcnow() call of the run modelled as
clock n (whole seconds); callIdx is the index of this call in the run. -/
def save_raw (clock : Nat → Nat) (callIdx : Nat) (out_dir label : String) :
    SaveRawResult :=
  { out_dir := out_dir, label := label, timestamp_sec := clock callIdx }

/-- Provenance record built by get_census_acs5
(src/collect_hanover_data.py lines 103-110): retrieved_at is a fresh
datetime.utcnow() reading, independent of the one _save_raw embedded in the
file name. -/
structure ProvenanceRecord where
  endpoint : String
  geography : String
  retrieved_at_sec : Nat
  raw_saved_to : SaveRawResult
  deriving DecidableEq, Repr

/-- Timestamp-relevant slice of a successful get_census_acs5 run
(src/collect_hanover_data.py lines 99-110): _save_raw reads the clock first
(call 0) for the file name, then the provenance dict reads it again
(call 1) for retrieved_at. -/
def acs5_provenance (clock : Nat → Nat) : ProvenanceRecord :=
  let saved := save_raw clock 0 "data/raw/census" "acs5_2023_zcta21076"
  { endpoint := "https://api.census.gov/data/2023/acs/acs5"
  , geography := "zip code tabulation area:21076"
  , retrieved_at_sec := clock 1
  , raw_saved_to := saved }

/-- Python truthiness of an optional string: absent and empty are falsy
(os.getenv returns None when unset; `if not api_key` also rejects ""). -/
def strTruthy (v : Option String) : Bool :=
  match v with
  | none => false
  | some s => s ≠ ""

/-- Outcome of the HTTP call inside get_census_acs5, as seen by the caller:
either the request/raise_for_status fails, or it returns the parsed JSON
rows (each cell a string or null). -/
inductive HttpResult where
  | failure : HttpResult
  | success (rows : List (List (Option String))) : HttpResult
  deriving DecidableEq, Repr

/-- Caller-observable effects of one get_census_acs5 invocation
(src/collect_hanover_data.py lines 31-117). -/
structure FetchEffects where
  http_requests : Nat
  printed_error : Bool
  raised_exception : Bool
  returned_none : Bool
  deriving DecidableEq, Repr

/-- Effect model of get_census_acs5 (src/collect_hanover_data.py lines
31-117): a falsy CENSUS_API_KEY prints an ERROR message and returns None
before any request is issued (lines 33-37); with a key, the try/except
swallows every exception and returns None (lines 115-117), and a response
with fewer than two rows (or a falsy empty one) is also an error return
(lines 74-76).  No path propagates an exception to the caller, and no
ConfigurationError type exists anywhere in the repository. -/
def get_census_acs5_effects (api_key : Option String) (net : HttpResult) :
    FetchEffects :=
  if !(strTruthy api_key) then
    { http_requests := 0, printed_error := true, raised_exception := false
    , returned_none := true }
  else
    match net with
    | HttpResult.failure =>
      { http_requests := 1, printed_error := true, raised_exception := false
      , returned_none := true }
    | HttpResult.success rows =>
      if rows.length < 2 then
        { http_requests := 1, printed_error := true, raised_exception := false
        , returned_none := true }
      else
        { http_requests := 1, printed_error := false
        , raised_exception := false, returned_none := false }

/-- Parsed data/hanover_real_data.json together with the filesystem facts
the Audit Tool consults (src/scripts/audit_provenance.py lines 56-147).
The acs_* and m_* fields are the converted values the checks read; a field
is none when the corresponding key is absent or null. -/
structure AuditDoc where
  file_exists : Bool
  parses : Bool
  acs_block_with_provenance : Bool
  acs_raw_file_exists : Bool
  dec_block_with_provenance : Bool
  dec_raw_file_exists : Bool
  acs_total_population : Option Int
  acs_total_housing : Option Int
  acs_owner_occ : Option Int
  acs_renter_occ : Option Int
  m_population_2023 : Option Int
  m_median_home_value : Option Rat
  m_median_income : Option Rat
  m_price_to_income : Option Rat
  m_vacancy_rate : Option Rat
  deriving DecidableEq, Repr

/-- Outcome of audit_hanover_real_data: the overall ok flag plus the
recorded result of each optional cross-check (none = check skipped, some b
= PASS/FAIL line written with value b). -/
structure AuditOutcome where
  ok : Bool
  pop_check : Option Bool
  pti_check : Option Bool
  vac_check : Option Bool
  crashed_in_checks : Bool
  deriving DecidableEq, Repr

/-- audit_hanover_real_data (src/scripts/audit_provenance.py lines 56-147).
Checks run in source order; the vacancy recomputation hits Python
ZeroDivisionError when total housing is 0, which the enclosing except turns
into an ERROR line with ok = False and no further check. -/
def audit_hanover_real_data (d : AuditDoc) : AuditOutcome :=
  if !d.file_exists || !d.parses then
    { ok := false, pop_check := none, pti_check := none, vac_check := none
    , crashed_in_checks := false }
  else
    let okStruct :=
      (d.acs_block_with_provenance && d.acs_raw_file_exists)
        && (d.dec_block_with_provenance && d.dec_raw_file_exists)
    let pop_check : Option Bool :=
      match d.acs_total_population, d.m_population_2023 with
      | some p, some m => some (p == m)
      | _, _ => none
    let ptiApplicable := d.m_median_home_value.isSome
      && d.m_median_income.isSome && d.m_price_to_income.isSome
      && qtruthy d.m_median_income
    let pti_check : Option Bool :=
      if ptiApplicable then
        some (decide (|d.m_median_home_value.getD 0 / d.m_median_income.getD 0
          - d.m_price_to_income.getD 0| < 1 / 1000000))
      else none
    let vacApplicable := d.acs_total_housing.isSome && d.acs_owner_occ.isSome
      && d.acs_renter_occ.isSome && d.m_vacancy_rate.isSome
    let vacCrash := vacApplicable && iv d.acs_total_housing == 0
    let vac_check : Option Bool :=
      if vacApplicable && !vacCrash then
        some (decide (|(((iv d.acs_total_housing : Rat)
          - ((iv d.acs_owner_occ : Rat) + (iv d.acs_renter_occ : Rat)))
          / (iv d.acs_total_housing : Rat)) * 100
          - d.m_vacancy_rate.getD 0| < 1 / 1000000))
      else none
    { ok := okStruct && pop_check.getD true && pti_check.getD true
        && vac_check.getD true && !vacCrash
    , pop_check := pop_check
    , pti_check := pti_check
    , vac_check := vac_check
    , crashed_in_checks := vacCrash }

/-- Parsed data/real_employment_income.json together with the filesystem
facts audit_real_employment_income consults
(src/scripts/audit_provenance.py lines 150-180). -/
structure EmploymentAuditDoc where
  file_exists : Bool
  parses : Bool
  has_income : Bool
  has_employment : Bool
  has_affordability : Bool
  baseline_path_exists : Bool
  deriving DecidableEq, Repr

/-- audit_real_employment_income (src/scripts/audit_provenance.py lines
150-180): ok requires the file, the three blocks, and the affordability
baseline path to exist. -/
def audit_real_employment_income (e : EmploymentAuditDoc) : Bool :=
  if !e.file_exists || !e.parses then false
  else (e.has_income && e.has_employment && e.has_affordability)
    && e.baseline_path_exists

/-- main of the Audit Tool (src/scripts/audit_provenance.py lines 243-302):
overall status is the conjunction of the two document audits (the raw-file
layout scan is advisory and never affects it); the process exit code is 0
on overall PASS and 1 otherwise. -/
def audit_main_exit (d : AuditDoc) (e : EmploymentAuditDoc) : Nat :=
  let ok1 := (audit_hanover_real_data d).ok
  let ok2 := audit_real_employment_income e
  if ok1 && ok2 then 0 else 1

/-- Uniform income distribution whose reported B19001_001E total (100) does
not equal the sum of its 16 bracket counts (16 times 5 = 80). -/
def blkUniform100 : IncomeBlock :=
  { total_households := some 100
  , bracket_counts := List.replicate 16 (some 5) }

/-- Consistent uniform income distribution: reported total 80 equals the
sum of its 16 bracket counts. -/
def blkUniform80 : IncomeBlock :=
  { total_households := some 80
  , bracket_counts := List.replicate 16 (some 5) }

/-- Classification the source produces for blkUniform80 with median home
value 492100 and median gross rent 2337: required income 118104, the four
brackets at or above it (124999, 149999, 199999, 300000) hold 20 of the 80
households. -/
def rUniform80 : AffordabilityResult :=
  { required_income := 118104, can_afford := 20, cannot_afford := 60
  , can_afford_percentage := 25, cannot_afford_percentage := 75
  , total_households := 80 }

/-- ACS block with all three vacancy inputs present, one of them the
legitimate count 0. -/
def acsZeroOwner : AcsData :=
  { total_population := none, median_income := none, median_home_value := none
  , median_gross_rent := none, total_housing_units := some 8850
  , owner_occupied := some 0, renter_occupied := some 2800
  , total_workers := none, public_transit := none, work_from_home := none
  , bachelor := none, master := none, professional := none
  , doctorate := none }

/-- Audit input: a well-formed document whose stored vacancy_rate (10) has
drifted from the value recomputed from its raw inputs
(8850, 5500, 2800 give about 6.2147). -/
def auditDocDrift : AuditDoc :=
  { file_exists := true, parses := true
  , acs_block_with_provenance := true, acs_raw_file_exists := true
  , dec_block_with_provenance := true, dec_raw_file_exists := true
  , acs_total_population := none
  , acs_total_housing := some 8850, acs_owner_occ := some 5500
  , acs_renter_occ := some 2800
  , m_population_2023 := none, m_median_home_value := none
  , m_median_income := none, m_price_to_income := none
  , m_vacancy_rate := some 10 }

/-- Employment-audit input with every check passing, isolating the drifted
document as the only failure. -/
def empDocOk : EmploymentAuditDoc :=
  { file_exists := true, parses := true, has_income := true
  , has_employment := true, has_affordability := true
  , baseline_path_exists := true }

end MarylandData

namespace MarylandData

/-- C2 counterexample: the Decennial collector converts the sentinel raw
string -666666666 with a bare int(), recording the numeric sentinel value,
not null — refuting the claim that every collector (ACS and Decennial
alike) maps sentinel codes to null. -/
theorem decennial_sentinel_numeric_cex :
    decennialConvert (some "-666666666") = PyVal.vInt (-666666666)
      ∧ PyVal.vInt (-666666666) ≠ PyVal.vNone := by
  decide

/-- C2 (amended): the ACS collectors and convert_census_value map each of
the three sentinel raw strings to null, while the Decennial collector
records each as its numeric value. -/
theorem sentinel_conversion_per_collector :
    (acsConvert (some "-666666666") = PyVal.vNone
      ∧ acsConvert (some "-888888888") = PyVal.vNone
      ∧ acsConvert (some "-999999999") = PyVal.vNone)
    ∧ (convert_census_value (PyVal.vStr "-666666666") = PyVal.vNone
      ∧ convert_census_value (PyVal.vStr "-888888888") = PyVal.vNone
      ∧ convert_census_value (PyVal.vStr "-999999999") = PyVal.vNone)
    ∧ (decennialConvert (some "-666666666") = PyVal.vInt (-666666666)
      ∧ decennialConvert (some "-888888888") = PyVal.vInt (-888888888)
      ∧ decennialConvert (some "-999999999") = PyVal.vInt (-999999999)) := by
  decide

/-- C3 counterexample: for an ACS block whose values are all unavailable,
calculate_key_metrics returns an empty metrics mapping and save_results
still writes the JSON document (both functions are total; nothing is
raised) — refuting the claim that a run with zero computable metrics raises
and writes no output. -/
theorem empty_metrics_written_cex :
    (calculate_key_metrics (some acsAllNull) none false).map Metrics.isEmpty
        = some true
      ∧ (save_results (calculate_key_metrics (some acsAllNull) none
          false)).json_written = true
      ∧ (save_results (calculate_key_metrics (some acsAllNull) none
          false)).csv_written = false := by
  decide

/-- C3 (amended): the calculator returns None only when the ACS input is
absent and otherwise may return an empty mapping; save_results writes the
JSON document unconditionally and never raises, skipping only the CSV
summary when the metrics mapping is None or empty. -/
theorem save_results_always_writes_json
    (metrics : Option Metrics) (dec : Option DecennialData) (hsg : Bool) :
    (save_results metrics).json_written = true
      ∧ (save_results metrics).csv_written
          = (metrics.map (fun m => !(Metrics.isEmpty m))).getD false
      ∧ calculate_key_metrics none dec hsg = none := by
  refine ⟨rfl, ?_, rfl⟩
  cases metrics <;> rfl

/-- C5 counterexample: with all three vacancy inputs present but the
owner-occupied count the legitimate value 0, the vacancy_rate metric is
omitted (Python all() treats 0 as missing) — refuting the claim that the
metric is computed whenever all three inputs are present. -/
theorem vacancy_zero_count_cex :
    acsZeroOwner.total_housing_units = some 8850
      ∧ acsZeroOwner.owner_occupied = some 0
      ∧ acsZeroOwner.renter_occupied = some 2800
      ∧ (calcMetricsSome acsZeroOwner none false).vacancy_rate = none := by
  decide

/-- C5 (amended): vacancy_rate equals
(total - (owner + renter)) / total x 100 and is present exactly when all
three inputs are present AND non-zero; a present zero count (or zero
total) omits the metric. -/
theorem vacancy_rate_condition (a : AcsData) (dec : Option DecennialData)
    (hsg : Bool) :
    (calcMetricsSome a dec hsg).vacancy_rate =
      match a.total_housing_units, a.owner_occupied, a.renter_occupied with
      | some t, some o, some r =>
        if t ≠ 0 ∧ o ≠ 0 ∧ r ≠ 0 then
          some ((((t : Rat) - ((o : Rat) + (r : Rat))) / (t : Rat)) * 100)
        else none
      | _, _, _ => none := by
  cases ht : a.total_housing_units <;> cases ho : a.owner_occupied
    <;> cases hr : a.renter_occupied
    <;> simp [calcMetricsSome, truthy, iv, ht, ho, hr, and_assoc]

/-- C9 (confirmed): public_transit_rate and work_from_home_rate are always
present together or absent together, and they are present exactly when
total_workers is present and non-zero (Python truthiness) and both
commuter counts are non-null. -/
theorem transit_wfh_rates_paired (a : AcsData) (dec : Option DecennialData)
    (hsg : Bool) :
    ((calcMetricsSome a dec hsg).public_transit_rate.isSome
        = (calcMetricsSome a dec hsg).work_from_home_rate.isSome)
      ∧ ((calcMetricsSome a dec hsg).public_transit_rate.isSome
        = (truthy a.total_workers && a.public_transit.isSome
            && a.work_from_home.isSome)) := by
  cases hw : (truthy a.total_workers && a.public_transit.isSome
      && a.work_from_home.isSome)
    <;> simp [calcMetricsSome, hw]

/-- C6 counterexample: with the credential absent, get_census_acs5 issues
no HTTP request, prints an ERROR message and returns None as a plain value;
no exception is propagated to the caller (and no ConfigurationError type
exists anywhere in the repository) — refuting the claim that the fetch
fails with a ConfigurationError. -/
theorem missing_key_no_exception_cex :
    (get_census_acs5_effects none HttpResult.failure).raised_exception
        = false
      ∧ (get_census_acs5_effects none HttpResult.failure).returned_none
        = true
      ∧ (get_census_acs5_effects none HttpResult.failure).http_requests
        = 0
      ∧ (get_census_acs5_effects none HttpResult.failure).printed_error
        = true := by
  decide

/-- C6 (amended): whenever the credential is absent or empty, the fetch
prints a descriptive error and returns None to the caller, raising nothing
and issuing no HTTP request, regardless of the network. -/
theorem missing_key_effects (api_key : Option String) (net : HttpResult)
    (h : strTruthy api_key = false) :
    get_census_acs5_effects api_key net =
      { http_requests := 0, printed_error := true, raised_exception := false
      , returned_none := true } := by
  unfold get_census_acs5_effects
  rw [h]
  rfl

/-- Witness for missing_key_effects at the concrete input of an unset
credential and a failing network. -/
theorem missing_key_effects_witness :
    get_census_acs5_effects none HttpResult.failure =
      { http_requests := 0, printed_error := true, raised_exception := false
      , returned_none :=  true } :=
  missing_key_effects none HttpResult.failure (by decide)

/-- Unfolding equation of convert_census_value on the string constructor. -/
theorem convert_census_value_vStr (s : String) :
    convert_census_value (PyVal.vStr s) =
      (if s = "0" then PyVal.vInt 0
       else if sentinel s = true then PyVal.vNone
       else
         match pyParseInt s with
         | some n => PyVal.vInt n
         | none => PyVal.vStr s) := rfl

/-- C10 (confirmed): convert_census_value is a total function that maps
None and exactly the three sentinel strings to null; any other string that
does not parse as an integer is returned unchanged as the same string, and
every non-string non-None value (integers, floats) is returned unchanged —
so its output is not guaranteed to be numeric-or-null. -/
theorem convert_census_value_spec :
    (convert_census_value PyVal.vNone = PyVal.vNone)
      ∧ (∀ s : String, sentinel s = true →
          convert_census_value (PyVal.vStr s) = PyVal.vNone)
      ∧ (∀ s : String, convert_census_value (PyVal.vStr s) = PyVal.vNone →
          sentinel s = true)
      ∧ (∀ s : String, sentinel s = false → pyParseInt s = none →
          convert_census_value (PyVal.vStr s) = PyVal.vStr s)
      ∧ (∀ n : Int, convert_census_value (PyVal.vInt n) = PyVal.vInt n)
      ∧ (∀ q : Rat, convert_census_value (PyVal.vFloat q) = PyVal.vFloat q)
      := by
  refine ⟨rfl, ?_, ?_, ?_, fun n => rfl, fun q => rfl⟩
  · intro s hs
    simp only [sentinel, Bool.or_eq_true, beq_iff_eq] at hs
    rcases hs with (h | h) | h <;> subst h <;> decide
  · intro s hconv
    rw [convert_census_value_vStr] at hconv
    by_cases h0 : s = "0"
    · rw [if_pos h0] at hconv; exact absurd hconv (by decide)
    · rw [if_neg h0] at hconv
      by_cases hsen : sentinel s
      · exact hsen
      · rw [if_neg (by simp [hsen])] at hconv
        cases hp : pyParseInt s <;> rw [hp] at hconv
          <;> exact absurd hconv (by simp)
  · intro s hsen hp
    rw [convert_census_value_vStr]
    by_cases h0 : s = "0"
    · subst h0; exact absurd hp (by decide)
    · rw [if_neg h0, if_neg (by simp [hsen]), hp]

/-- Witness for convert_census_value_spec: the sentinel clause at
-888888888 and the unparsable-string clause at "abc". -/
theorem convert_census_value_spec_witness :
    convert_census_value (PyVal.vStr "-888888888") = PyVal.vNone
      ∧ convert_census_value (PyVal.vStr "abc") = PyVal.vStr "abc" :=
  ⟨convert_census_value_spec.2.1 "-888888888" (by decide),
   convert_census_value_spec.2.2.2.1 "abc" (by decide) (by decide)⟩

/-- C4 counterexample: in a run where the clock advances one second between
_save_raw's reading and the provenance reading, the second embedded in the
file name (0) and the second recorded in retrieved_at (1) differ — refuting
the claim that the two timestamps can never differ. -/
theorem provenance_timestamp_drift_cex :
    (acs5_provenance (fun n => n)).raw_saved_to.timestamp_sec = 0
      ∧ (acs5_provenance (fun n => n)).retrieved_at_sec = 1
      ∧ (acs5_provenance (fun n => n)).retrieved_at_sec
        ≠ (acs5_provenance (fun n => n)).raw_saved_to.timestamp_sec := by
  refine ⟨rfl, rfl, by decide⟩

/-- C4 (amended): the file-name timestamp and retrieved_at are two separate
datetime.utcnow() readings (the save-time reading and a later one); they
agree exactly when both calls fall within the same UTC second, and nothing
in the code derives one from the other. -/
theorem provenance_timestamp_reads (clock : Nat → Nat) :
    (acs5_provenance clock).raw_saved_to.timestamp_sec = clock 0
      ∧ (acs5_provenance clock).retrieved_at_sec = clock 1
      ∧ (((acs5_provenance clock).retrieved_at_sec
            == (acs5_provenance clock).raw_saved_to.timestamp_sec)
          = (clock 1 == clock 0)) :=
  ⟨rfl, rfl, rfl⟩

/-- C7 (confirmed): for a well-formed audited document whose stored
vacancy_rate differs from the value recomputed from its raw inputs by at
least the 1e-6 tolerance, audit_hanover_real_data records FAIL for the
vacancy recomputation check and the tool's exit code is 1, whatever the
other audited document looks like. -/
theorem audit_vacancy_drift_fails (d : AuditDoc) (e : EmploymentAuditDoc)
    (t o r : Int) (v : Rat)
    (hfe : d.file_exists = true) (hpa : d.parses = true)
    (ht : d.acs_total_housing = some t) (ht0 : t ≠ 0)
    (ho : d.acs_owner_occ = some o) (hr : d.acs_renter_occ = some r)
    (hv : d.m_vacancy_rate = some v)
    (hdiff : 1 / 1000000
      ≤ |(((t : Rat) - ((o : Rat) + (r : Rat))) / (t : Rat)) * 100 - v|) :
    (audit_hanover_real_data d).vac_check = some false
      ∧ audit_main_exit d e = 1 := by
  have hnl : ¬(|(((t : Rat) - ((o : Rat) + (r : Rat))) / (t : Rat)) * 100 - v|
      < 1 / 1000000) := not_lt.mpr hdiff
  have hvac : (audit_hanover_real_data d).vac_check = some false := by
    simp only [audit_hanover_real_data, hfe, hpa, ht, ho, hr, hv]
    simp [iv, ht0, not_lt]
    simpa using hdiff
  have hok : (audit_hanover_real_data d).ok = false := by
    simp only [audit_hanover_real_data, hfe, hpa, ht, ho, hr, hv]
    simp [iv, ht0, not_lt]
    intros
    simpa using hdiff
  refine ⟨hvac, ?_⟩
  simp [audit_main_exit, hok]

/-- Witness for audit_vacancy_drift_fails: the drifted document
auditDocDrift (raw 8850/5500/2800, stored vacancy_rate 10) against an
otherwise passing employment audit. -/
theorem audit_vacancy_drift_fails_witness :
    (audit_hanover_real_data auditDocDrift).vac_check = some false
      ∧ audit_main_exit auditDocDrift empDocOk = 1 :=
  audit_vacancy_drift_fails auditDocDrift empDocOk 8850 5500 2800 10
    rfl rfl rfl (by norm_num) rfl rfl rfl (by rw [le_abs]; norm_num)

/-- Python truthiness chain of the housing-cost selection collapses to the
maximum for non-negative inputs that are not both zero. -/
theorem monthlyHousingCost_max (r p : Rat) (hr : 0 ≤ r) (hp : 0 ≤ p)
    (hne : r ≠ 0 ∨ p ≠ 0) :
    monthlyHousingCost (some r) (some p) = some (max r p) := by
  by_cases h1 : r = 0
  · subst h1
    rcases hne with h | h
    · exact absurd rfl h
    · simp [monthlyHousingCost, qtruthy, h, max_eq_right hp]
  · by_cases h2 : p = 0
    · subst h2
      simp [monthlyHousingCost, qtruthy, h1, max_eq_left hr]
    · simp [monthlyHousingCost, qtruthy, h1, h2]

/-- Evaluation of the analyzer at the consistent uniform distribution with
the documented scenario inputs (median home value 492100, median gross
rent 2337). -/
theorem analyze_blkUniform80_eval :
    analyze_real_affordability (some blkUniform80) (some 492100) (some 2337)
      = some rUniform80 := by
  simp only [analyze_real_affordability, monthlyHousingCost, qtruthy,
    classifyLoop, bracketRows, bracketCount, bracket_bounds, classifyStep,
    blkUniform80, rUniform80, List.replicate, List.range_succ,
    List.range_zero, List.map_append, List.map_cons, List.map_nil,
    List.foldl_append, List.foldl_cons, List.foldl_nil, List.getD,
    Option.getD, Option.map_some, List.nil_append, List.cons_append]
  norm_num

/-- C8 counterexample: with both housing-cost inputs present but both equal
to the legitimate value 0, the analyzer returns None instead of choosing
max(0, 0.006 x 0) = 0 and classifying against a zero required income —
refuting the claim for every pair of present inputs. -/
theorem both_zero_inputs_cex :
    analyze_real_affordability (some blkUniform80) (some 0) (some 0)
      = none := by
  simp only [analyze_real_affordability, monthlyHousingCost, qtruthy]
  norm_num

/-- C8 (amended): whenever both inputs are present, non-negative and not
both zero, the analyzer's required income is
max(median_gross_rent, 0.006 x median_home_value) x 12 / 0.30; in the
documented scenario the mortgage proxy 0.006 x 492100 = 2952.6 beats the
rent 2337 and the required income is exactly 118104. -/
theorem affordability_cost_is_max (blk : IncomeBlock) (mhv mgr : Rat)
    (res : AffordabilityResult) (h0 : 0 ≤ mgr) (h1 : 0 ≤ mhv)
    (hne : mgr ≠ 0 ∨ mhv ≠ 0)
    (h : analyze_real_affordability (some blk) (some mhv) (some mgr)
      = some res) :
    res.required_income = max mgr (6 / 1000 * mhv) * 12 / (3 / 10)
      ∧ max (2337 : Rat) (6 / 1000 * 492100) = 29526 / 10
      ∧ (analyze_real_affordability (some blkUniform80) (some 492100)
          (some 2337)).map (fun x => x.required_income) = some 118104 := by
  have hpiti : (0 : Rat) ≤ 6 / 1000 * mhv := by positivity
  have hne2 : mgr ≠ 0 ∨ 6 / 1000 * mhv ≠ 0 := by
    rcases hne with hg | hh
    · exact Or.inl hg
    · exact Or.inr (mul_ne_zero (by norm_num) hh)
  have hc := monthlyHousingCost_max mgr (6 / 1000 * mhv) h0 hpiti hne2
  refine ⟨?_, by norm_num, ?_⟩
  · simp only [analyze_real_affordability] at h
    have hmap : Option.map (fun v => (6 / 1000 : Rat) * v) (some mhv)
        = some (6 / 1000 * mhv) := rfl
    rw [hmap, hc] at h
    split at h
    · exact absurd h (by simp)
    · rename_i cost hcost
      split at h
      · exact absurd h (by simp)
      · split at h
        · exact absurd h (by simp)
        · rw [Option.some.injEq] at h
          subst h
          injection hcost with hcost
          exact congrArg (fun c => c * 12 / (3 / 10)) hcost.symm
  · rw [analyze_blkUniform80_eval]
    rfl

/-- Witness for affordability_cost_is_max at the documented scenario
inputs. -/
theorem affordability_cost_is_max_witness :
    rUniform80.required_income
        = max 2337 (6 / 1000 * 492100) * 12 / (3 / 10)
      ∧ max (2337 : Rat) (6 / 1000 * 492100) = 29526 / 10
      ∧ (analyze_real_affordability (some blkUniform80) (some 492100)
          (some 2337)).map (fun x => x.required_income) = some 118104 :=
  affordability_cost_is_max blkUniform80 492100 2337 rUniform80
    (by norm_num) (by norm_num) (Or.inl (by norm_num))
    analyze_blkUniform80_eval

/-- Fold invariant of the classification loop: the two counters always sum
to the initial counters plus every household count seen. -/
theorem classifyStep_foldl_sum (required : Rat) (l : List (Int × Int)) :
    ∀ acc : Int × Int,
      ((l.foldl (classifyStep required) acc).1
          + (l.foldl (classifyStep required) acc).2)
        = acc.1 + acc.2 + (l.map Prod.snd).sum := by
  induction l with
  | nil => intro acc; simp
  | cons p t ih =>
    intro acc
    simp only [List.foldl_cons, List.map_cons, List.sum_cons]
    rw [ih]
    unfold classifyStep
    split <;> simp <;> ring

/-- The classification loop's counters sum to the total of the 16 bracket
counts. -/
theorem classifyLoop_sum (blk : IncomeBlock) (required : Rat) :
    (classifyLoop blk required).1 + (classifyLoop blk required).2
      = bracketSum blk := by
  unfold classifyLoop
  rw [classifyStep_foldl_sum]
  simp only [bracketRows, List.map_map]
  have hsnd : Prod.snd ∘ (fun i =>
      (bracket_bounds.getD i 0, bracketCount blk i)) = bracketCount blk := rfl
  rw [hsnd]
  simp [bracketSum]

/-- C1 counterexample: for a distribution whose 16 bracket counts sum to 80
while the reported B19001_001E total is 100, the classification's two
counters sum to 80, not to the total_households (100) reported in the same
output — refuting the claim for every distribution, since the source never
reconciles the reported total with the bracket counts. -/
theorem affordability_total_mismatch_cex :
    (analyze_real_affordability (some blkUniform100) (some 492100)
        (some 2337)).map
      (fun res => (res.can_afford + res.cannot_afford, res.total_households))
      = some (80, 100)
      ∧ ((80 : Int), (100 : Int)).1 ≠ ((80 : Int), (100 : Int)).2 := by
  constructor
  · simp only [analyze_real_affordability, monthlyHousingCost, qtruthy,
      classifyLoop, bracketRows, bracketCount, bracket_bounds, classifyStep,
      blkUniform100, List.replicate, List.range_succ, List.range_zero,
      List.map_append, List.map_cons, List.map_nil, List.foldl_append,
      List.foldl_cons, List.foldl_nil, List.getD, Option.getD,
      Option.map_some, List.nil_append, List.cons_append]
    norm_num
  · decide

/-- C1 (amended): whenever the analyzer returns a classification, its
can_afford and cannot_afford counters sum exactly to the sum of the 16
bracket counts (every bracket assigned to exactly one side, none dropped);
this equals the reported total_households precisely when the input's
B19001_001E total equals that bracket sum. -/
theorem affordability_counters_sum (blk : IncomeBlock) (mhv mgr : Option Rat)
    (res : AffordabilityResult)
    (h : analyze_real_affordability (some blk) mhv mgr = some res) :
    res.can_afford + res.cannot_afford = bracketSum blk
      ∧ (blk.total_households = some (bracketSum blk) →
          res.can_afford + res.cannot_afford = res.total_households) := by
  simp only [analyze_real_affordability] at h
  split at h
  · exact absurd h (by simp)
  · split at h
    · exact absurd h (by simp)
    · split at h
      · exact absurd h (by simp)
      · rename_i cost hcost tot htot htot0
        injection h with h
        subst h
        refine ⟨classifyLoop_sum blk _, fun hsum => ?_⟩
        rw [htot] at hsum
        injection hsum with hsum
        exact (classifyLoop_sum blk _).trans hsum.symm

/-- Witness for affordability_counters_sum at the consistent uniform
distribution and the documented scenario inputs. -/
theorem affordability_counters_sum_witness :
    rUniform80.can_afford + rUniform80.cannot_afford = bracketSum blkUniform80
      ∧ (blkUniform80.total_households = some (bracketSum blkUniform80) →
          rUniform80.can_afford + rUniform80.cannot_afford
            = rUniform80.total_households) :=
  affordability_counters_sum blkUniform80 (some 492100) (some 2337)
    rUniform80 analyze_blkUniform80_eval

end MarylandData
